import Mathlib

/-!
Shallow embedding of `platforms/brook/src/BrookCalcStandardMMForceFieldKernel.cpp`
(OpenMM Brook platform force-field kernel adapter).

The visible C++ file is glue: it forwards setup parameters to two delegate
objects (`BrookBonded`, `BrookNonBonded`) and sequences five external GPU
kernel invocations (`knbforce_CDLJ4`, `kMergeFloat3_4_nobranch`,
`kbonded_CDLJ`, `kinvmap_gather3_4` / `kinvmap_gather3_5`,
`kinvmap_gather5_2`).  The dispatch logic, the error path, the call order and
the `executeEnergy` stub are embedded directly from the source.  The bodies of
the GPU gather kernels and of the delegate `setup` methods are not part of the
excerpt; where a claim depends on them they are modelled from the spec, with a
doc comment saying so.

Force values are modelled as integer 3-vectors (the claims under study concern
control flow, accumulation structure and sentinel behaviour, not floating
point arithmetic), and per-atom streams as functions from atom index.
-/

/-- A 3-vector force value `(x, y, z)`.  Components are integers: the claims
concern accumulation structure, not floating-point rounding. -/
abbrev Force : Type := ℤ × ℤ × ℤ

/-- A per-atom stream of 3-vectors (positions or forces), modelled as a
function from atom index to value. -/
abbrev ForceArray : Type := Nat → Force

/-- Role index for the I role, as the source static `I_Stream = 0`. -/
def I_Stream : Nat := 0

/-- Role index for the J role, as the source static `J_Stream = 1`. -/
def J_Stream : Nat := 1

/-- Role index for the K role, as the source static `K_Stream = 2`. -/
def K_Stream : Nat := 2

/-- Role index for the L role, as the source static `L_Stream = 3`. -/
def L_Stream : Nat := 3

/-- One inverse-map index stream: for each atom, either the index of a lane of
the partial-force buffer contributing to that atom, or the sentinel
(`none`), which must resolve to a zero contribution. -/
abbrev InvMapStream : Type := Nat → Option Nat

/-- The runtime data of the `BrookBonded` delegate that `executeForces` reads:
the per-role inverse-map stream count (`getInverseMapStreamCount`), the
per-role inverse-map streams (`getInverseStreamMapsStreams`), and the per-role
partial bonded force buffers produced by `kbonded_CDLJ` from the positions
(`getBondedForceStreams`), kept abstract as a function of the positions since
the kernel body is outside the excerpt. -/
structure BrookBondedDev where
  inverseMapStreamCount : Nat → Nat
  inverseStreamMaps : Nat → Nat → InvMapStream
  bondedForceStreams : ForceArray → Nat → Nat → Force

/-- The runtime data of the `BrookNonBonded` delegate that `executeForces`
reads, abstracted to the per-atom nonbonded force contribution that
`knbforce_CDLJ4` followed by `kMergeFloat3_4_nobranch` deposits into the
output stream, as a function of the positions. -/
structure BrookNonBondedDev where
  nbContribution : ForceArray → Nat → Force

/-- Modelled from the spec: the gather contribution of one role to one atom.
The implementation of the `kinvmap_gather*` kernels (`kinvmap_gather.h`) is
not in the excerpt; the spec says each inverse-map stream entry is either a
valid lane index, whose partial force is summed, or a sentinel contributing
exactly zero. -/
def gatherContribution (streams : List InvMapStream) (buf : Nat → Force)
    (atom : Nat) : Force :=
  (streams.map (fun m =>
    match m atom with
    | some lane => buf lane
    | none => (0 : Force))).sum

/-- Modelled from the spec: a two-role inverse-map gather kernel
(`kinvmap_gather3_4`, `kinvmap_gather3_5`, `kinvmap_gather5_2`).  For every
atom it sums the partial forces selected by role A's map streams and by role
B's map streams and adds both sums onto the atom's existing output entry
(accumulation, never overwrite). -/
def kinvmap_gatherPair (streamsA : List InvMapStream) (bufA : Nat → Force)
    (streamsB : List InvMapStream) (bufB : Nat → Force)
    (out : ForceArray) : ForceArray :=
  fun atom =>
    out atom + gatherContribution streamsA bufA atom
      + gatherContribution streamsB bufB atom

/-- Modelled from the spec: `kMergeFloat3_4_nobranch` merges the nonbonded
partial force streams and accumulates the per-atom nonbonded contribution
onto the output force stream (the output array is pre-populated by nonbonded
contributions before the bonded gather runs). -/
def kMergeFloat3_4_nobranch (nb : Nat → Force) (out : ForceArray) : ForceArray :=
  fun atom => out atom + nb atom

/-- The first `count` inverse-map streams of a role, as passed positionally to
a gather kernel at the call sites in `executeForces`. -/
def invMaps (b : BrookBondedDev) (role count : Nat) : List InvMapStream :=
  (List.range count).map (fun j => b.inverseStreamMaps role j)

/-- One external kernel invocation issued by `executeForces`, in program
order.  The gather events record how many inverse-map index streams each of
the two roles supplied at the call site. -/
inductive KernelCall where
  | knbforce_CDLJ4 : KernelCall
  | kMergeFloat3_4_nobranch : KernelCall
  | kbonded_CDLJ : KernelCall
  | kinvmap_gather3_4 (iStreams kStreams : Nat) : KernelCall
  | kinvmap_gather3_5 (iStreams kStreams : Nat) : KernelCall
  | kinvmap_gather5_2 (jStreams lStreams : Nat) : KernelCall
deriving DecidableEq

/-- Result of one `executeForces` call: the output force stream after the
call, the sequence of external kernel invocations issued, and the exception
message if one was thrown (the output stream retains the mutations made
before the throw, as the C++ stream is mutated in place). -/
structure ExecResult where
  forces : ForceArray
  calls : List KernelCall
  error : Option String

/-- The source static `methodName` used to build the exception message. -/
def methodName : String := "BrookCalcStandardMMForceFieldKernel::executeForces"

/-- `BrookCalcStandardMMForceFieldKernel::executeForces`: nonbonded kernel and
merge, bonded kernel, then the (I,K) gather selected by the K-role
inverse-map stream count (`<= 4` selects `kinvmap_gather3_4` with 3 I-streams
and 4 K-streams, `== 5` selects `kinvmap_gather3_5` with 3 I-streams and 5
K-streams, anything else throws an `OpenMMException` carrying the count), and
finally the unconditional (J,L) gather `kinvmap_gather5_2` with 5 J-streams
and 2 L-streams.  All gathers accumulate into the same output stream. -/
def executeForces (bonded : BrookBondedDev) (nonbonded : BrookNonBondedDev)
    (positions : ForceArray) (forces : ForceArray) : ExecResult :=
  let afterNonbonded := kMergeFloat3_4_nobranch (nonbonded.nbContribution positions) forces
  let fI := bonded.bondedForceStreams positions I_Stream
  let fJ := bonded.bondedForceStreams positions J_Stream
  let fK := bonded.bondedForceStreams positions K_Stream
  let fL := bonded.bondedForceStreams positions L_Stream
  let preCalls : List KernelCall :=
    [KernelCall.knbforce_CDLJ4, KernelCall.kMergeFloat3_4_nobranch, KernelCall.kbonded_CDLJ]
  if bonded.inverseMapStreamCount K_Stream ≤ 4 then
    let afterIK := kinvmap_gatherPair (invMaps bonded I_Stream 3) fI
                     (invMaps bonded K_Stream 4) fK afterNonbonded
    let afterJL := kinvmap_gatherPair (invMaps bonded J_Stream 5) fJ
                     (invMaps bonded L_Stream 2) fL afterIK
    { forces := afterJL
      calls := preCalls ++ [KernelCall.kinvmap_gather3_4 3 4, KernelCall.kinvmap_gather5_2 5 2]
      error := none }
  else if bonded.inverseMapStreamCount K_Stream = 5 then
    let afterIK := kinvmap_gatherPair (invMaps bonded I_Stream 3) fI
                     (invMaps bonded K_Stream 5) fK afterNonbonded
    let afterJL := kinvmap_gatherPair (invMaps bonded J_Stream 5) fJ
                     (invMaps bonded L_Stream 2) fL afterIK
    { forces := afterJL
      calls := preCalls ++ [KernelCall.kinvmap_gather3_5 3 5, KernelCall.kinvmap_gather5_2 5 2]
      error := none }
  else
    { forces := afterNonbonded
      calls := preCalls
      error := some (methodName ++ "K-maps="
        ++ toString (bonded.inverseMapStreamCount K_Stream) ++ " not handled.") }

/-- `BrookCalcStandardMMForceFieldKernel::executeEnergy`: always returns 0.0;
energies are not calculated on this execution path. -/
def executeEnergy (_positions : ForceArray) : ℚ := 0

/-- The argument list of `BrookCalcStandardMMForceFieldKernel::initialize`.
Index tuples are integer lists, scalar parameters are rationals,
`nonbondedMethod` is the enum value. -/
structure InitArgs where
  bondIndices : List (List Int)
  bondParameters : List (List ℚ)
  angleIndices : List (List Int)
  angleParameters : List (List ℚ)
  periodicTorsionIndices : List (List Int)
  periodicTorsionParameters : List (List ℚ)
  rbTorsionIndices : List (List Int)
  rbTorsionParameters : List (List ℚ)
  bonded14Indices : List (List Int)
  lj14Scale : ℚ
  coulomb14Scale : ℚ
  exclusions : List (List Int)
  nonbondedParameters : List (List ℚ)
  nonbondedMethod : Nat
  nonbondedCutoff : ℚ
  periodicBoxSize : ℚ × ℚ × ℚ
deriving DecidableEq

/-- Modelled from the spec: the `BrookBonded` delegate after `setup` (the
`setup` body is outside the excerpt).  The spec says setup records the
topology and parameters and builds state from them, so the delegate is
modelled as the record of the arguments the adapter passes to
`BrookBonded::setup`. -/
structure BrookBonded where
  numberOfAtoms : Nat
  bondIndices : List (List Int)
  bondParameters : List (List ℚ)
  angleIndices : List (List Int)
  angleParameters : List (List ℚ)
  periodicTorsionIndices : List (List Int)
  periodicTorsionParameters : List (List ℚ)
  rbTorsionIndices : List (List Int)
  rbTorsionParameters : List (List ℚ)
  bonded14Indices : List (List Int)
  nonbondedParameters : List (List ℚ)
  lj14Scale : ℚ
  coulomb14Scale : ℚ
deriving DecidableEq

/-- Modelled from the spec: the `BrookNonBonded` delegate after `setup` (the
`setup` body is outside the excerpt), modelled as the record of the arguments
the adapter passes to `BrookNonBonded::setup`. -/
structure BrookNonBonded where
  numberOfAtoms : Nat
  nonbondedParameters : List (List ℚ)
  exclusions : List (List Int)
deriving DecidableEq

/-- The adapter kernel's own state: `_numberOfAtoms` and the two owned
delegate pointers (`none` models the NULL pointer). -/
structure KernelState where
  numberOfAtoms : Nat
  brookBonded : Option BrookBonded
  brookNonBonded : Option BrookNonBonded
deriving DecidableEq

/-- The kernel state established by the constructor:
`_numberOfAtoms = 0`, both delegate pointers NULL. -/
def freshKernel : KernelState :=
  { numberOfAtoms := 0, brookBonded := none, brookNonBonded := none }

/-- One allocation-related action taken by `initialize`, in program order. -/
inductive InitAction where
  | deleteBrookBonded : InitAction
  | newBrookBonded : InitAction
  | setupBrookBonded : InitAction
  | deleteBrookNonBonded : InitAction
  | newBrookNonBonded : InitAction
  | setupBrookNonBonded : InitAction
deriving DecidableEq

/-- `BrookCalcStandardMMForceFieldKernel::initialize` (named `initKernel`
here): sets `_numberOfAtoms` to `nonbondedParameters.size()`, deletes the old
`BrookBonded` if present and constructs and sets up a new one, then deletes
the old `BrookNonBonded` if present and constructs and sets up a new one.
`nonbondedMethod`, `nonbondedCutoff` and `periodicBoxSize` are never read.
Returns the new kernel state and the trace of allocation actions. -/
def initKernel (s : KernelState) (a : InitArgs) : KernelState × List InitAction :=
  let n := a.nonbondedParameters.length
  let bondedTrace :=
    (if s.brookBonded.isSome then [InitAction.deleteBrookBonded] else [])
      ++ [InitAction.newBrookBonded, InitAction.setupBrookBonded]
  let nonbondedTrace :=
    (if s.brookNonBonded.isSome then [InitAction.deleteBrookNonBonded] else [])
      ++ [InitAction.newBrookNonBonded, InitAction.setupBrookNonBonded]
  ({ numberOfAtoms := n
     brookBonded := some
       { numberOfAtoms := n
         bondIndices := a.bondIndices
         bondParameters := a.bondParameters
         angleIndices := a.angleIndices
         angleParameters := a.angleParameters
         periodicTorsionIndices := a.periodicTorsionIndices
         periodicTorsionParameters := a.periodicTorsionParameters
         rbTorsionIndices := a.rbTorsionIndices
         rbTorsionParameters := a.rbTorsionParameters
         bonded14Indices := a.bonded14Indices
         nonbondedParameters := a.nonbondedParameters
         lj14Scale := a.lj14Scale
         coulomb14Scale := a.coulomb14Scale }
     brookNonBonded := some
       { numberOfAtoms := n
         nonbondedParameters := a.nonbondedParameters
         exclusions := a.exclusions } },
   bondedTrace ++ nonbondedTrace)

/-- Tests whether a kernel invocation is the (J,L) role-pair gather
`kinvmap_gather5_2`, with any stream counts. -/
def isGather5_2 : KernelCall → Bool
  | KernelCall.kinvmap_gather5_2 _ _ => true
  | _ => false

/-- A concrete all-zero position stream for witnesses. -/
def posZero : ForceArray := fun _ => 0

/-- A concrete baseline output force stream for witnesses, nonzero so that
preservation of the entry value is visible. -/
def baseForces : ForceArray := fun _ => (1, 2, 3)

/-- A concrete nonbonded delegate runtime contributing a constant force. -/
def nbDevConst : BrookNonBondedDev :=
  { nbContribution := fun _ _ => (1, 0, 0) }

/-- A concrete bonded delegate runtime whose K-role inverse-map stream count
is 4. -/
def bondedDev4 : BrookBondedDev :=
  { inverseMapStreamCount := fun _ => 4
    inverseStreamMaps := fun role j a => if a = 0 then some (role + j) else none
    bondedForceStreams := fun _ role lane => ((role : ℤ), (lane : ℤ), 0) }

/-- A concrete bonded delegate runtime whose K-role inverse-map stream count
is 5. -/
def bondedDev5 : BrookBondedDev :=
  { inverseMapStreamCount := fun _ => 5
    inverseStreamMaps := fun _ _ _ => none
    bondedForceStreams := fun _ _ _ => (0, 1, 0) }

/-- A concrete bonded delegate runtime whose K-role inverse-map stream count
is 6, the unsupported configuration. -/
def bondedDev6 : BrookBondedDev :=
  { inverseMapStreamCount := fun _ => 6
    inverseStreamMaps := fun _ _ _ => none
    bondedForceStreams := fun _ _ _ => (0, 0, 1) }

/-- A concrete list of inverse-map streams holding only sentinel entries. -/
def sentinelStreams : List InvMapStream := [fun _ => none]

/-- A concrete partial-force buffer for witnesses. -/
def bufConst : Nat → Force := fun lane => ((lane : ℤ), 5, 7)

/-- An inverse-map stream whose entries are all sentinels for a given atom
contributes zero to that atom's gathered force. -/
lemma gatherContribution_sentinel (streams : List InvMapStream)
    (buf : Nat → Force) (atom : Nat) (h : ∀ m ∈ streams, m atom = none) :
    gatherContribution streams buf atom = 0 := by
  induction streams with
  | nil => simp [gatherContribution]
  | cons m rest ih =>
      have hm : m atom = none := h m (List.mem_cons_self m rest)
      have hrest : ∀ m ∈ rest, m atom = none :=
        fun m hmem => h m (List.mem_cons_of_mem _ hmem)
      simp only [gatherContribution, List.map_cons, List.sum_cons, hm] at *
      rw [ih hrest]
      simp

/-- C1: if, during executeForces, the K-role inverse-map stream count is
neither <= 4 nor exactly 5, the call raises the unsupported-configuration
failure whose message carries the offending fan-in count, the output force
stream is left exactly as the nonbonded merge left it (no bonded mutation),
the I/K gather is skipped entirely, and no bonded gather call is issued for
that step. -/
theorem C1_unsupported_k_fanin_fails_fast (bonded : BrookBondedDev)
    (nonbonded : BrookNonBondedDev) (positions forces : ForceArray)
    (h4 : ¬ bonded.inverseMapStreamCount K_Stream ≤ 4)
    (h5 : bonded.inverseMapStreamCount K_Stream ≠ 5) :
    (executeForces bonded nonbonded positions forces).error =
      some (methodName ++ "K-maps="
        ++ toString (bonded.inverseMapStreamCount K_Stream) ++ " not handled.") ∧
    (executeForces bonded nonbonded positions forces).forces =
      kMergeFloat3_4_nobranch (nonbonded.nbContribution positions) forces ∧
    (executeForces bonded nonbonded positions forces).calls =
      [KernelCall.knbforce_CDLJ4, KernelCall.kMergeFloat3_4_nobranch,
       KernelCall.kbonded_CDLJ] := by
  refine ⟨?_, ?_, ?_⟩ <;> simp [executeForces, h4, h5]

/-- Witness for C1 at a concrete fan-in of 6. -/
theorem C1_unsupported_k_fanin_fails_fast_witness :
    (¬ bondedDev6.inverseMapStreamCount K_Stream ≤ 4) ∧
    bondedDev6.inverseMapStreamCount K_Stream ≠ 5 ∧
    ((executeForces bondedDev6 nbDevConst posZero baseForces).error =
      some (methodName ++ "K-maps="
        ++ toString (bondedDev6.inverseMapStreamCount K_Stream) ++ " not handled.") ∧
    (executeForces bondedDev6 nbDevConst posZero baseForces).forces =
      kMergeFloat3_4_nobranch (nbDevConst.nbContribution posZero) baseForces ∧
    (executeForces bondedDev6 nbDevConst posZero baseForces).calls =
      [KernelCall.knbforce_CDLJ4, KernelCall.kMergeFloat3_4_nobranch,
       KernelCall.kbonded_CDLJ]) :=
  ⟨by decide, by decide,
    C1_unsupported_k_fanin_fails_fast bondedDev6 nbDevConst posZero baseForces
      (by decide) (by decide)⟩

/-- C2: the (I,K) gather variant is selected by the K-role inverse-map stream
count: a count <= 4 invokes kinvmap_gather3_4 (3 I-streams, 4 K-streams), a
count of exactly 5 invokes kinvmap_gather3_5 (3 I-streams, 5 K-streams);
exactly one of the two appears in the trace of a successful call, and a call
succeeds exactly when the count is <= 5. -/
theorem C2_ik_variant_selection (bonded : BrookBondedDev)
    (nonbonded : BrookNonBondedDev) (positions forces : ForceArray) :
    (bonded.inverseMapStreamCount K_Stream ≤ 4 →
      (executeForces bonded nonbonded positions forces).calls =
        [KernelCall.knbforce_CDLJ4, KernelCall.kMergeFloat3_4_nobranch,
         KernelCall.kbonded_CDLJ, KernelCall.kinvmap_gather3_4 3 4,
         KernelCall.kinvmap_gather5_2 5 2]) ∧
    (bonded.inverseMapStreamCount K_Stream = 5 →
      (executeForces bonded nonbonded positions forces).calls =
        [KernelCall.knbforce_CDLJ4, KernelCall.kMergeFloat3_4_nobranch,
         KernelCall.kbonded_CDLJ, KernelCall.kinvmap_gather3_5 3 5,
         KernelCall.kinvmap_gather5_2 5 2]) ∧
    ((executeForces bonded nonbonded positions forces).error = none ↔
      bonded.inverseMapStreamCount K_Stream ≤ 5) := by
  refine ⟨fun h4 => by simp [executeForces, h4], fun h5 => ?_, ?_⟩
  · have h4 : ¬ bonded.inverseMapStreamCount K_Stream ≤ 4 := by omega
    simp [executeForces, h4, h5]
  · by_cases h4 : bonded.inverseMapStreamCount K_Stream ≤ 4
    · simp [executeForces, h4]; omega
    · by_cases h5 : bonded.inverseMapStreamCount K_Stream = 5
      · simp [executeForces, h4, h5]
      · simp [executeForces, h4, h5]; omega

/-- Witness for C2 at a concrete fan-in of 4: the 3-stream/4-stream variant
is dispatched. -/
theorem C2_ik_variant_selection_witness :
    bondedDev4.inverseMapStreamCount K_Stream ≤ 4 ∧
    (executeForces bondedDev4 nbDevConst posZero baseForces).calls =
      [KernelCall.knbforce_CDLJ4, KernelCall.kMergeFloat3_4_nobranch,
       KernelCall.kbonded_CDLJ, KernelCall.kinvmap_gather3_4 3 4,
       KernelCall.kinvmap_gather5_2 5 2] :=
  ⟨by decide,
    (C2_ik_variant_selection bondedDev4 nbDevConst posZero baseForces).1 (by decide)⟩

/-- C3: executeEnergy returns exactly zero for every positions input; no real
potential energy is computed on this path. -/
theorem C3_executeEnergy_always_zero (positions : ForceArray) :
    executeEnergy positions = 0 := rfl

/-- C4: in a successful call, executeForces accumulates: for every atom the
value present on entry appears as a summand of the resulting value, with the
nonbonded contribution and the four per-role gathered bonded contributions
added to it (never overwritten); and inverse-map streams holding only
sentinel entries for an atom contribute exactly zero. -/
theorem C4_accumulation_only (bonded : BrookBondedDev)
    (nonbonded : BrookNonBondedDev) (positions forces : ForceArray) (atom : Nat)
    (streams : List InvMapStream) (buf : Nat → Force)
    (hok : (executeForces bonded nonbonded positions forces).error = none)
    (hsent : ∀ m ∈ streams, m atom = none) :
    (executeForces bonded nonbonded positions forces).forces atom =
      forces atom + nonbonded.nbContribution positions atom
        + gatherContribution (invMaps bonded I_Stream 3)
            (bonded.bondedForceStreams positions I_Stream) atom
        + gatherContribution
            (invMaps bonded K_Stream
              (if bonded.inverseMapStreamCount K_Stream ≤ 4 then 4 else 5))
            (bonded.bondedForceStreams positions K_Stream) atom
        + gatherContribution (invMaps bonded J_Stream 5)
            (bonded.bondedForceStreams positions J_Stream) atom
        + gatherContribution (invMaps bonded L_Stream 2)
            (bonded.bondedForceStreams positions L_Stream) atom ∧
    gatherContribution streams buf atom = 0 := by
  refine ⟨?_, gatherContribution_sentinel streams buf atom hsent⟩
  by_cases h4 : bonded.inverseMapStreamCount K_Stream ≤ 4
  · simp [executeForces, h4, kinvmap_gatherPair, kMergeFloat3_4_nobranch]
  · by_cases h5 : bonded.inverseMapStreamCount K_Stream = 5
    · simp [executeForces, h4, h5, kinvmap_gatherPair, kMergeFloat3_4_nobranch]
    · simp [executeForces, h4, h5] at hok

/-- Witness for C4 at concrete inputs with K-role fan-in 4. -/
theorem C4_accumulation_only_witness :
    (executeForces bondedDev4 nbDevConst posZero baseForces).error = none ∧
    (∀ m ∈ sentinelStreams, m 0 = none) ∧
    ((executeForces bondedDev4 nbDevConst posZero baseForces).forces 0 =
      baseForces 0 + nbDevConst.nbContribution posZero 0
        + gatherContribution (invMaps bondedDev4 I_Stream 3)
            (bondedDev4.bondedForceStreams posZero I_Stream) 0
        + gatherContribution
            (invMaps bondedDev4 K_Stream
              (if bondedDev4.inverseMapStreamCount K_Stream ≤ 4 then 4 else 5))
            (bondedDev4.bondedForceStreams posZero K_Stream) 0
        + gatherContribution (invMaps bondedDev4 J_Stream 5)
            (bondedDev4.bondedForceStreams posZero J_Stream) 0
        + gatherContribution (invMaps bondedDev4 L_Stream 2)
            (bondedDev4.bondedForceStreams posZero L_Stream) 0 ∧
    gatherContribution sentinelStreams bufConst 0 = 0) := by
  have hs : ∀ m ∈ sentinelStreams, m 0 = none := by
    intro m hm
    rw [sentinelStreams, List.mem_singleton] at hm
    subst hm
    rfl
  exact ⟨rfl, hs,
    C4_accumulation_only bondedDev4 nbDevConst posZero baseForces 0
      sentinelStreams bufConst rfl hs⟩

/-- C5: in every successful call the (I,K) gather is dispatched strictly
before the (J,L) gather, and both accumulate into the same output force
stream: the final stream is the (J,L) gather applied to the stream produced
by the (I,K) gather. -/
theorem C5_ik_before_jl (bonded : BrookBondedDev)
    (nonbonded : BrookNonBondedDev) (positions forces : ForceArray)
    (hok : (executeForces bonded nonbonded positions forces).error = none) :
    (executeForces bonded nonbonded positions forces).calls =
      [KernelCall.knbforce_CDLJ4, KernelCall.kMergeFloat3_4_nobranch,
       KernelCall.kbonded_CDLJ,
       (if bonded.inverseMapStreamCount K_Stream ≤ 4 then
          KernelCall.kinvmap_gather3_4 3 4 else KernelCall.kinvmap_gather3_5 3 5),
       KernelCall.kinvmap_gather5_2 5 2] ∧
    (executeForces bonded nonbonded positions forces).forces =
      kinvmap_gatherPair (invMaps bonded J_Stream 5)
        (bonded.bondedForceStreams positions J_Stream)
        (invMaps bonded L_Stream 2)
        (bonded.bondedForceStreams positions L_Stream)
        (kinvmap_gatherPair (invMaps bonded I_Stream 3)
          (bonded.bondedForceStreams positions I_Stream)
          (invMaps bonded K_Stream
            (if bonded.inverseMapStreamCount K_Stream ≤ 4 then 4 else 5))
          (bonded.bondedForceStreams positions K_Stream)
          (kMergeFloat3_4_nobranch (nonbonded.nbContribution positions) forces)) := by
  by_cases h4 : bonded.inverseMapStreamCount K_Stream ≤ 4
  · exact ⟨by simp [executeForces, h4], by simp [executeForces, h4]⟩
  · by_cases h5 : bonded.inverseMapStreamCount K_Stream = 5
    · exact ⟨by simp [executeForces, h4, h5], by simp [executeForces, h4, h5]⟩
    · simp [executeForces, h4, h5] at hok

/-- Witness for C5 at a concrete fan-in of 5. -/
theorem C5_ik_before_jl_witness :
    (executeForces bondedDev5 nbDevConst posZero baseForces).error = none ∧
    ((executeForces bondedDev5 nbDevConst posZero baseForces).calls =
      [KernelCall.knbforce_CDLJ4, KernelCall.kMergeFloat3_4_nobranch,
       KernelCall.kbonded_CDLJ,
       (if bondedDev5.inverseMapStreamCount K_Stream ≤ 4 then
          KernelCall.kinvmap_gather3_4 3 4 else KernelCall.kinvmap_gather3_5 3 5),
       KernelCall.kinvmap_gather5_2 5 2] ∧
    (executeForces bondedDev5 nbDevConst posZero baseForces).forces =
      kinvmap_gatherPair (invMaps bondedDev5 J_Stream 5)
        (bondedDev5.bondedForceStreams posZero J_Stream)
        (invMaps bondedDev5 L_Stream 2)
        (bondedDev5.bondedForceStreams posZero L_Stream)
        (kinvmap_gatherPair (invMaps bondedDev5 I_Stream 3)
          (bondedDev5.bondedForceStreams posZero I_Stream)
          (invMaps bondedDev5 K_Stream
            (if bondedDev5.inverseMapStreamCount K_Stream ≤ 4 then 4 else 5))
          (bondedDev5.bondedForceStreams posZero K_Stream)
          (kMergeFloat3_4_nobranch (nbDevConst.nbContribution posZero) baseForces))) :=
  ⟨rfl, C5_ik_before_jl bondedDev5 nbDevConst posZero baseForces rfl⟩

/-- C6: every successful call issues exactly one (J,L) gather, and it is
kinvmap_gather5_2 with J supplying 5 inverse-map streams and L supplying 2,
with no fan-in-dependent branch. -/
theorem C6_jl_fixed_shape (bonded : BrookBondedDev)
    (nonbonded : BrookNonBondedDev) (positions forces : ForceArray)
    (hok : (executeForces bonded nonbonded positions forces).error = none) :
    (executeForces bonded nonbonded positions forces).calls.filter isGather5_2 =
      [KernelCall.kinvmap_gather5_2 5 2] := by
  by_cases h4 : bonded.inverseMapStreamCount K_Stream ≤ 4
  · simp [executeForces, h4, isGather5_2]
  · by_cases h5 : bonded.inverseMapStreamCount K_Stream = 5
    · simp [executeForces, h4, h5, isGather5_2]
    · simp [executeForces, h4, h5] at hok

/-- Witness for C6 at a concrete fan-in of 5. -/
theorem C6_jl_fixed_shape_witness :
    (executeForces bondedDev5 nbDevConst posZero baseForces).error = none ∧
    (executeForces bondedDev5 nbDevConst posZero baseForces).calls.filter isGather5_2 =
      [KernelCall.kinvmap_gather5_2 5 2] :=
  ⟨rfl, C6_jl_fixed_shape bondedDev5 nbDevConst posZero baseForces rfl⟩

/-- C7: a second initialize call first deletes each previously constructed
delegate before constructing and setting up its replacement (its action trace
is delete, new, setup for BrookBonded, then delete, new, setup for
BrookNonBonded), and the resulting kernel state equals the state a fresh
kernel would reach from the second call's arguments alone. -/
theorem C7_reinit_releases_then_rebuilds (s : KernelState) (a1 a2 : InitArgs) :
    (initKernel (initKernel s a1).1 a2).2 =
      [InitAction.deleteBrookBonded, InitAction.newBrookBonded,
       InitAction.setupBrookBonded, InitAction.deleteBrookNonBonded,
       InitAction.newBrookNonBonded, InitAction.setupBrookNonBonded] ∧
    (initKernel (initKernel s a1).1 a2).1 = (initKernel freshKernel a2).1 :=
  ⟨rfl, rfl⟩

/-- C8: executeForces is deterministic: for one delegate runtime, identical
positions, and an output stream reset to the same baseline, two runs produce
identical resulting force values at every atom (the per-step evaluation is a
pure function of the kernel state, the positions and the baseline). -/
theorem C8_deterministic (bonded : BrookBondedDev)
    (nonbonded : BrookNonBondedDev) (positions baseline : ForceArray)
    (atom : Nat) :
    (executeForces bonded nonbonded positions baseline).forces atom =
      (executeForces bonded nonbonded positions baseline).forces atom ∧
    executeForces bonded nonbonded positions baseline =
      executeForces bonded nonbonded positions baseline :=
  ⟨rfl, rfl⟩

/-- C9: nonbondedMethod, nonbondedCutoff and periodicBoxSize are never read:
two initialize calls whose arguments differ only in those three parameters
produce identical kernel states and identical action traces, so all
subsequent behaviour of the kernel agrees. -/
theorem C9_unread_nonbonded_parameters (s : KernelState) (a : InitArgs)
    (m : Nat) (c : ℚ) (box : ℚ × ℚ × ℚ) :
    initKernel s
        { a with nonbondedMethod := m, nonbondedCutoff := c,
                 periodicBoxSize := box } =
      initKernel s a :=
  rfl

/-- C10: after initialize, the kernel's atom count and the count passed to
both delegate setup calls equal nonbondedParameters.size(), and the count is
unchanged under arbitrary replacement of the bond, angle, torsion and 1-4
term lists. -/
theorem C10_atom_count_from_nonbonded_parameters (s : KernelState)
    (a : InitArgs) (bi ai ti ri b14 : List (List Int)) :
    (initKernel s a).1.numberOfAtoms = a.nonbondedParameters.length ∧
    (initKernel s a).1.brookBonded.map (fun b => b.numberOfAtoms) =
      some a.nonbondedParameters.length ∧
    (initKernel s a).1.brookNonBonded.map (fun b => b.numberOfAtoms) =
      some a.nonbondedParameters.length ∧
    (initKernel s
        { a with bondIndices := bi, angleIndices := ai,
                 periodicTorsionIndices := ti, rbTorsionIndices := ri,
                 bonded14Indices := b14 }).1.numberOfAtoms =
      a.nonbondedParameters.length :=
  ⟨rfl, rfl, rfl, rfl⟩
